import Mathlib

/-!
Verification of the JM-Rec recording-session engine (src/jm_rec.py).

This file gives a shallow embedding, in Lean, of the pure core of the
recorder: the note-name mapping (jm_rec.py lines 43-55), the engine state
and its transition methods (class RecorderEngine, lines 87-567), the
boundary settings/setup handlers (create_web_app, lines 610-687), the
per-take capture logic (lines 277-418) and the encode/save step
(lines 420-470).  Machine integers are modelled as Nat/Int (Python ints
are unbounded), Python float division in the progress computation is
modelled as exact rational division, real-time sleeping is modelled by
discrete polling ticks, and the file system / audio hardware are modelled
by explicit result values (which files would be written, whether a device
opened, what frames a stream produced).  The concurrent recording cycle
runs in a single background thread in the source; with no external stop()
or pause() interfering, its behaviour is the sequential function
`recording_cycle` below, with each fallible step's outcome passed in
explicitly.
-/

namespace JMRec

/-! ## Note mapping (jm_rec.py lines 43-55) -/

/-- Source line 43: `NOTE_NAMES = ['c','c#','d','d#','e','f','f#','g','g#','a','a#','b']`. -/
def NOTE_NAMES : List String := ["c", "c#", "d", "d#", "e", "f", "f#", "g", "g#", "a", "a#", "b"]

/-- ASCII upper-casing of one character, as Python `str.upper` acts on the
characters that occur in `NOTE_NAMES`. -/
def upper_char (c : Char) : Char :=
  if c.toNat ≥ 97 ∧ c.toNat ≤ 122 then Char.ofNat (c.toNat - 32) else c

/-- Python `str.upper` on an ASCII string. -/
def str_upper (s : String) : String := String.mk (s.data.map upper_char)

/-- Python format specifier `03d`: decimal rendering zero-padded to a total
width of three characters (sign included, as in CPython). -/
def pyFormat03d (n : Int) : String :=
  let sign : String := "-"
  if n < 0 then
    let s := toString (-n)
    sign ++ String.mk (List.replicate (2 - s.length) '0') ++ s
  else
    let s := toString n
    String.mk (List.replicate (3 - s.length) '0') ++ s

/-- Source lines 46-50: display name such as `C2`, `C#2`: upper-cased pitch
class of `n % 12` followed by the octave `n // 12 - 1`.  Lean's `Int`
division and remainder agree with Python's floor division and `%` here. -/
def midi_to_display (n : Int) : String :=
  str_upper (NOTE_NAMES.getD ((n % 12).toNat) default) ++ toString (n / 12 - 1)

/-- The literal hyphen used in the file-stem convention. -/
def nm_dash : String := "-"

/-- Source lines 52-55: GrandOrgue file stem such as `036-c`:
zero-padded three-digit MIDI number, hyphen, lower-case pitch class. -/
def midi_to_filename (n : Int) : String :=
  pyFormat03d n ++ nm_dash ++ NOTE_NAMES.getD ((n % 12).toNat) default

/-! ### Checkers for the spec's stem pattern, written from the source's
stated convention so the produced strings can be inspected rather than
merely compared with themselves. -/

/-- Does a string match the pattern three digits, hyphen, one letter `a`-`g`,
optionally followed by a sharp sign (the spec's regex for file stems)? -/
def stem_matches (s : String) : Bool :=
  match s.data with
  | [a, b, c, h, p] =>
      a.isDigit && b.isDigit && c.isDigit && h == '-' && decide ('a' ≤ p) && decide (p ≤ 'g')
  | [a, b, c, h, p, q] =>
      a.isDigit && b.isDigit && c.isDigit && h == '-' && decide ('a' ≤ p) && decide (p ≤ 'g')
        && q == '#'
  | _ => false

/-- Numeric value of the three leading digits of a file stem. -/
def stem_prefix_val (s : String) : Option Nat :=
  match s.data with
  | a :: b :: c :: _ =>
      if a.isDigit && b.isDigit && c.isDigit then
        some ((a.toNat - 48) * 100 + (b.toNat - 48) * 10 + (c.toNat - 48))
      else none
  | _ => none

/-- A character that can begin the octave part of a display name: a digit or
a leading minus sign.  No pitch-class name contains such a character. -/
def octave_start (c : Char) : Bool := c == '-' || c.isDigit

/-- Value of a list of decimal digit characters. -/
def digits_val (ds : List Char) : Nat :=
  ds.foldl (fun a c => a * 10 + (c.toNat - 48)) 0

/-- Decode an optionally-signed decimal integer from characters. -/
def int_decode (ds : List Char) : Option Int :=
  match ds with
  | '-' :: rest =>
      if rest ≠ [] ∧ rest.all Char.isDigit then some (-(digits_val rest : Int)) else none
  | _ =>
      if ds ≠ [] ∧ ds.all Char.isDigit then some ((digits_val ds : Int)) else none

/-- Split a display name into its pitch-class part and its decoded octave. -/
def display_split (s : String) : String × Option Int :=
  let cs := s.data
  (String.mk (cs.takeWhile (fun c => !octave_start c)),
   int_decode (cs.dropWhile (fun c => !octave_start c)))

/-! ## Engine state (RecorderEngine.__init__, jm_rec.py lines 88-132) -/

/-- The four values of `RecorderEngine.state` (a string in the source). -/
inductive Phase where
  | idle
  | countdown
  | recording
  | paused
deriving DecidableEq

/-- The mutable state of `RecorderEngine`.  Fields keep the source's names;
note numbers are `Int` because the boundary accepts arbitrary Python ints,
and the VU level is a rational standing for the source's float. -/
structure Engine where
  project_name : String
  register_name : String
  output_dir : String
  sample_rate : Nat
  bit_depth : Nat
  channels : Nat
  mp3_bitrate : Nat
  device_indices : List Nat
  device_names : List (Nat × String)
  keyboards : List String
  has_pedal : Bool
  current_keyboard : String
  tremulant : Bool
  countdown_seconds : Nat
  record_seconds : Nat
  start_note : Int
  end_note : Int
  current_note : Int
  state : Phase
  countdown_value : Nat
  is_running : Bool
  auto_advance : Bool
  current_level : ℚ
  current_levels : List (Nat × ℚ)
deriving DecidableEq

/-- The engine created at process start (`__init__` defaults; the home
directory prefix of `output_dir` is abbreviated). -/
def init : Engine where
  project_name := ""
  register_name := ""
  output_dir := "JM-Rec"
  sample_rate := 44100
  bit_depth := 16
  channels := 1
  mp3_bitrate := 192
  device_indices := []
  device_names := []
  keyboards := []
  has_pedal := false
  current_keyboard := ""
  tremulant := false
  countdown_seconds := 5
  record_seconds := 5
  start_note := 36
  end_note := 96
  current_note := 36
  state := Phase.idle
  countdown_value := 0
  is_running := false
  auto_advance := true
  current_level := 0
  current_levels := []

/-- Path separator used to model `os.path.join`. -/
def slash : String := "/"

/-- Model of `os.path.join` for two components. -/
def path_join (a b : String) : String := a ++ slash ++ b

/-- Suffix appended to a register folder when the tremulant is on. -/
def trem_suffix : String := "_trem"

/-- Source lines 175-181 (`get_current_register_path`): output dir /
project / keyboard / register, with `_trem` appended when the tremulant
flag is set and the name does not already end in it. -/
def get_current_register_path (s : Engine) : String :=
  let reg :=
    if s.tremulant ∧ ¬(trem_suffix.data.isSuffixOf s.register_name.data = true) then
      s.register_name ++ trem_suffix
    else s.register_name
  path_join (path_join (path_join s.output_dir s.project_name) s.current_keyboard) reg

/-- Source line 185 (`get_current_filename`). -/
def mp3_ext : String := ".mp3"

/-- Source line 185 (`get_current_filename`): stem of the current note plus
the mp3 extension. -/
def get_current_filename (s : Engine) : String := midi_to_filename s.current_note ++ mp3_ext

/-- Source lines 191-195 (`get_progress`): `done / total` when
`total = end - start + 1` is positive, else `0`.  Python's float division
of these small integers is modelled as exact rational division. -/
def get_progress (s : Engine) : ℚ :=
  let total : Int := s.end_note - s.start_note + 1
  let done : Int := s.current_note - s.start_note
  if 0 < total then (done : ℚ) / (total : ℚ) else 0

/-- The observable snapshot assembled by `get_state` (jm_rec.py lines
529-559), restricted to the fields the claims mention. -/
structure Snapshot where
  state : Phase
  project : String
  register : String
  current_keyboard : String
  tremulant : Bool
  countdown : Nat
  total : Int
  done : Int
  current_midi : Int
  current_name : String
  current_filename : String
  progress : ℚ
  level : ℚ
  levels : List (Nat × ℚ)
  sample_rate : Nat
  record_seconds : Nat
  countdown_seconds : Nat
  start_note : Int
  end_note : Int
deriving DecidableEq

/-- Source lines 529-559 (`get_state`). -/
def get_state (s : Engine) : Snapshot where
  state := s.state
  project := s.project_name
  register := s.register_name
  current_keyboard := s.current_keyboard
  tremulant := s.tremulant
  countdown := s.countdown_value
  total := s.end_note - s.start_note + 1
  done := s.current_note - s.start_note
  current_midi := s.current_note
  current_name := midi_to_display s.current_note
  current_filename := get_current_filename s
  progress := get_progress s
  level := s.current_level
  levels := s.current_levels
  sample_rate := s.sample_rate
  record_seconds := s.record_seconds
  countdown_seconds := s.countdown_seconds
  start_note := s.start_note
  end_note := s.end_note

/-! ## Notification sink (jm_rec.py lines 561-567) -/

/-- Source `_notify`: invoke the stored `on_state_change` callback on the
current snapshot inside `try:/except: pass`.  The callback is modelled as a
function that may fail with an exception value; the result records whether
anything escapes to the caller and what the engine state is afterwards. -/
def notify (cb : Snapshot → Except String Unit) (s : Engine) : Except String Engine :=
  match cb (get_state s) with
  | Except.ok _ => Except.ok s
  | Except.error _ => Except.ok s

/-! ## Engine transition methods (jm_rec.py lines 472-527)

Each method returns the successor engine together with the list of
snapshots it publishes through `_notify`, in order. -/

/-- Source lines 472-482 (`stop`). -/
def stop (s : Engine) : Engine × List Snapshot :=
  let s1 : Engine :=
    { s with is_running := false, state := Phase.idle, current_level := 0, current_levels := [] }
  (s1, [get_state s1])

/-- Source lines 484-488 (`pause`). -/
def pause (s : Engine) : Engine × List Snapshot :=
  let s1 : Engine := { s with is_running := false, state := Phase.paused }
  (s1, [get_state s1])

/-- Source lines 490-494 (`next_note`). -/
def next_note (s : Engine) : Engine × List Snapshot :=
  if s.current_note < s.end_note then
    let s1 : Engine := { s with current_note := s.current_note + 1 }
    (s1, [get_state s1])
  else (s, [])

/-- Source lines 496-500 (`prev_note`). -/
def prev_note (s : Engine) : Engine × List Snapshot :=
  if s.start_note < s.current_note then
    let s1 : Engine := { s with current_note := s.current_note - 1 }
    (s1, [get_state s1])
  else (s, [])

/-- Source lines 507-511 (`set_note`). -/
def set_note (midi_num : Int) (s : Engine) : Engine × List Snapshot :=
  if s.start_note ≤ midi_num ∧ midi_num ≤ s.end_note then
    let s1 : Engine := { s with current_note := midi_num }
    (s1, [get_state s1])
  else (s, [])

/-- Source lines 513-527 (`new_register`): stop, install the new register
name and tremulant flag, reset the pointer to the start of the range,
create the register directory, publish. -/
def new_register (register_name : String) (tremulant : Bool) (s : Engine) :
    Engine × List Snapshot :=
  let p := stop s
  let s2 : Engine :=
    { p.1 with register_name := register_name, tremulant := tremulant,
               current_note := p.1.start_note }
  (s2, p.2 ++ [get_state s2])

/-- Source lines 227-234 (`start_recording_cycle`): a no-op unless idle or
paused; otherwise sets `is_running` and spawns the cycle thread. -/
def start_recording_cycle (s : Engine) : Engine :=
  if s.state = Phase.idle ∨ s.state = Phase.paused then { s with is_running := true } else s

/-! ## Boundary settings and setup calls (create_web_app, jm_rec.py
lines 610-687) -/

/-- The optional fields a `/api/settings` request may carry (absent keys are
`none`); jm_rec.py lines 660-686. -/
structure SettingsUpdate where
  sample_rate : Option Nat := none
  bit_depth : Option Nat := none
  channels : Option Nat := none
  mp3_bitrate : Option Nat := none
  countdown_seconds : Option Nat := none
  record_seconds : Option Nat := none
  start_note : Option Int := none
  end_note : Option Int := none
  device_indices : Option (List Nat) := none
deriving DecidableEq

/-- Result of a boundary call: the JSON `success` flag, the engine
afterwards, and the snapshots published through `_notify` while handling
the call. -/
structure ApiResult where
  success : Bool
  engine : Engine
  published : List Snapshot
deriving DecidableEq

/-- The audio/workflow assignments of `api_settings` (source lines
662-673), which never touch the note fields. -/
def apply_audio_settings (u : SettingsUpdate) (s : Engine) : Engine :=
  let s := match u.sample_rate with
    | some v => { s with sample_rate := v }
    | none => s
  let s := match u.bit_depth with
    | some v => { s with bit_depth := v }
    | none => s
  let s := match u.channels with
    | some v => { s with channels := v }
    | none => s
  let s := match u.mp3_bitrate with
    | some v => { s with mp3_bitrate := v }
    | none => s
  let s := match u.countdown_seconds with
    | some v => { s with countdown_seconds := v }
    | none => s
  match u.record_seconds with
  | some v => { s with record_seconds := v }
  | none => s

/-- Source lines 674-676: assigning `start_note` re-clamps `current_note`
up to it. -/
def apply_start_note (u : SettingsUpdate) (s : Engine) : Engine :=
  match u.start_note with
  | some v => { s with start_note := v, current_note := max s.current_note v }
  | none => s

/-- Source lines 677-679: assigning `end_note` re-clamps `current_note`
down to it. -/
def apply_end_note (u : SettingsUpdate) (s : Engine) : Engine :=
  match u.end_note with
  | some v => { s with end_note := v, current_note := min s.current_note v }
  | none => s

/-- Source lines 680-686: device selection assignments. -/
def apply_device_settings (u : SettingsUpdate) (s : Engine) : Engine :=
  match u.device_indices with
  | some l => { s with device_indices := l }
  | none => s

/-- Source lines 659-687 (`api_settings`): each provided field is assigned
directly, with no range validation; the `start_note` clamp runs before the
`end_note` clamp, in source order.  The call always answers success and no
snapshot is published. -/
def update_settings (u : SettingsUpdate) (s : Engine) : ApiResult :=
  { success := true,
    engine := apply_device_settings u (apply_end_note u (apply_start_note u
      (apply_audio_settings u s))),
    published := [] }

/-- The range start in force after a settings update. -/
def upd_start (u : SettingsUpdate) (s : Engine) : Int := u.start_note.getD s.start_note

/-- The range end in force after a settings update. -/
def upd_end (u : SettingsUpdate) (s : Engine) : Int := u.end_note.getD s.end_note

/-- Source lines 210-225 (`setup_project`): installs the project and
register names, optionally the output directory, and creates directories.
It publishes no snapshot. -/
def setup_project (project_name register_name : String) (output_dir : Option String)
    (s : Engine) : Engine :=
  let s1 : Engine := { s with project_name := project_name, register_name := register_name }
  match output_dir with
  | some d => { s1 with output_dir := d }
  | none => s1

/-- Source lines 611-620 (`api_setup`): requires both `project` and
`register` keys; if either is missing it answers failure and touches
nothing. -/
def api_setup (project register : Option String) (output_dir : Option String)
    (s : Engine) : ApiResult :=
  match project, register with
  | some p, some r =>
      { success := true, engine := setup_project p r output_dir s, published := [] }
  | _, _ => { success := false, engine := s, published := [] }

/-- Source lines 154-173 (`setup_organ`): installs organ name, keyboards
and pedal flag, selects the first keyboard (or the pedal), publishes one
snapshot. -/
def setup_organ (organ_name : String) (keyboards : List String) (has_pedal : Bool)
    (output_dir : Option String) (s : Engine) : Engine × List Snapshot :=
  let s1 : Engine := { s with project_name := organ_name, keyboards := keyboards,
                              has_pedal := has_pedal }
  let s2 : Engine := match output_dir with
    | some d => { s1 with output_dir := d }
    | none => s1
  let s3 : Engine := match keyboards with
    | kb :: _ => { s2 with current_keyboard := kb }
    | [] => if has_pedal then { s2 with current_keyboard := "Pedaal" } else s2
  (s3, [get_state s3])

/-- An ASCII whitespace character, for Python `str.strip`. -/
def is_space (c : Char) : Bool := c == ' ' || c == '\t' || c == '\n' || c == '\r'

/-- Python `str.strip()` on ASCII strings. -/
def py_strip (s : String) : String :=
  String.mk (((s.data.dropWhile is_space).reverse.dropWhile is_space).reverse)

/-- Source lines 623-634 (`api_setup_organ`): rejects an organ name that is
empty after stripping, and a setup with no keyboards and no pedal, leaving
the engine untouched in both cases. -/
def api_setup_organ (organ : String) (keyboards : List String) (has_pedal : Bool)
    (output_dir : Option String) (s : Engine) : ApiResult :=
  if py_strip organ = "" then { success := false, engine := s, published := [] }
  else if keyboards = [] ∧ has_pedal = false then
    { success := false, engine := s, published := [] }
  else
    let p := setup_organ (py_strip organ) keyboards has_pedal output_dir s
    { success := true, engine := p.1, published := p.2 }

/-! ## Capture (jm_rec.py lines 277-418)

Real time is discretised into the source's 0.05-second polling ticks; the
cooperative `is_running` flag, as seen by the recording thread at each
tick, is a function of the tick index. -/

/-- Source line 279: the target frame count of one take,
`int(sample_rate * record_seconds)`. -/
def target_frames (s : Engine) : Nat := s.sample_rate * s.record_seconds

/-- The polling loop of `_do_record_single` (source lines 300-316): at each
tick the running flag is consulted; a false flag aborts the take
immediately (`sd.stop(); return`), so completion requires the flag to hold
at every tick of the take. -/
def record_poll (flag : Nat → Bool) : Nat → Nat → Bool
  | 0, _ => true
  | k + 1, t => if flag t then record_poll flag k (t + 1) else false

/-- Source lines 289-324 (`_do_record_single`): the take is saved (one
output file) exactly when the polling loop ran to completion; a
cancellation returns before `_save_mp3` is reached. -/
def do_record_single (flag : Nat → Bool) (ticks : Nat) : Bool :=
  record_poll flag ticks 0

/-- One device of a multi-device take: its index, whether
`sd.InputStream(...)` succeeded (source lines 347-358), and the list of
frame chunks its callback accumulated into `buffers[dev_idx]`. -/
structure DeviceTake where
  index : Nat
  opened : Bool
  chunks : List (List Int)
deriving DecidableEq

/-- Source lines 396-401: trim the concatenated buffer down to, or zero-pad
it up to, exactly the target frame count. -/
def trim_pad (frames : Nat) (audio : List Int) : List Int :=
  if audio.length > frames then audio.take frames
  else if audio.length < frames then audio ++ List.replicate (frames - audio.length) 0
  else audio

/-- The save phase of `_do_record_multi` (source lines 390-405): for each
device whose stream opened, skip it if its buffer list is empty, otherwise
write one file whose audio is the trimmed/padded concatenation of its
chunks.  The result lists, per written file, the device index and the frame
count written. -/
def multi_save (frames : Nat) (devs : List DeviceTake) : List (Nat × Nat) :=
  (devs.filter (fun d => d.opened)).filterMap fun d =>
    if d.chunks.isEmpty then none
    else some (d.index, (trim_pad frames d.chunks.flatten).length)

/-! ## Encoding (jm_rec.py lines 420-470) -/

/-- Which files exist after `_save_mp3`, and where. -/
structure SaveFiles where
  mp3_exists : Bool
  wav_exists : Bool
  mp3_path : String
  wav_path : String
deriving DecidableEq

/-- Temporary uncompressed extension. -/
def wav_ext : String := ".wav"

/-- Outcome of `subprocess.run(['lame', ...], check=True)` — a missing or
failing encoder raises, which the source catches (lines 455-463). -/
def run_lame (ok : Bool) : Except Unit Unit :=
  if ok then Except.ok () else Except.error ()

/-- Outcome of the pydub fallback export (source lines 464-470). -/
def run_pydub (ok : Bool) : Except Unit Unit :=
  if ok then Except.ok () else Except.error ()

/-- Source lines 420-470 (`_save_mp3`): write the WAV, try lame; on a lame
failure fall back to pydub; on a pydub failure keep the WAV and only log.
The `Except` result shows whether anything propagates to the caller. -/
def save_mp3 (lame_ok pydub_ok : Bool) (s : Engine) (subdirectory : Option String) :
    Except String SaveFiles :=
  let dir := match subdirectory with
    | some sub => path_join (get_current_register_path s) sub
    | none => get_current_register_path s
  let filename := midi_to_filename s.current_note
  let wavp := path_join dir (filename ++ wav_ext)
  let mp3p := path_join dir (filename ++ mp3_ext)
  match run_lame lame_ok with
  | Except.ok _ =>
      Except.ok { mp3_exists := true, wav_exists := false, mp3_path := mp3p, wav_path := wavp }
  | Except.error _ =>
      match run_pydub pydub_ok with
      | Except.ok _ =>
          Except.ok { mp3_exists := true, wav_exists := false, mp3_path := mp3p, wav_path := wavp }
      | Except.error _ =>
          Except.ok { mp3_exists := false, wav_exists := true, mp3_path := mp3p, wav_path := wavp }

/-! ## The recording cycle (jm_rec.py lines 236-275)

With no external `stop()`/`pause()` and every capture step running to
completion, `_recording_cycle` is the following sequential loop.  The files
each take would write are supplied by `saves` (empty when a take fails, for
example because no device opened); the source ignores this result when
deciding how to continue, and that indifference is part of what is proved.
The loop is written with explicit fuel so that it computes; the wrapper
`recording_cycle` supplies fuel that theorem `cycle_go_spec` below shows is
never exhausted. -/

/-- One burn of fuel is one iteration of the `while` loop at source
line 238. -/
def cycle_go (saves : Int → List String) : Nat → Engine → Engine × List (Int × List String)
  | 0, s => (s, [])
  | fuel + 1, s =>
      if s.is_running = true ∧ s.current_note ≤ s.end_note then
        let note := s.current_note
        let s1 : Engine :=
          { s with state := Phase.recording, countdown_value := 0, current_level := 0 }
        if s.auto_advance = true ∧ s.current_note < s.end_note then
          let s2 : Engine := { s1 with current_note := s1.current_note + 1 }
          let rest := cycle_go saves fuel s2
          (rest.1, (note, saves note) :: rest.2)
        else
          ({ s1 with state := Phase.paused }, [(note, saves note)])
      else
        ({ s with state := Phase.idle, is_running := false }, [])

/-- Source lines 236-275 (`_recording_cycle`) run to completion. -/
def recording_cycle (saves : Int → List String) (s : Engine) :
    Engine × List (Int × List String) :=
  cycle_go saves ((s.end_note - s.current_note).toNat + 1) s

/-- The ascending list of notes from `a` to `b` inclusive. -/
def noteRange (a b : Int) : List Int :=
  (List.range (b + 1 - a).toNat).map (fun (i : Nat) => a + (i : Int))

/-- `_recording_cycle` with its snapshot publications tracked (source
lines 236-275).  Per iteration the loop publishes, in order: the snapshot
after `state = "countdown"` (line 241, `countdown_value` still holding its
previous value), one snapshot per countdown tick with `countdown_value`
counting `countdown_seconds` down to 1 (lines 243-248), the snapshot after
`countdown_value = 0` (lines 250-251), the snapshot after
`state = "recording"` (lines 254-255), then whatever level snapshots the
take itself publishes from its polling loop (lines 315, 376) — these are
timing-dependent, so they are supplied by the `record_pubs` parameter as a
function of the engine state at record start.  The Paused and Idle exits
publish their post-state snapshots (lines 269, 275).  The engine and takes
components coincide with `cycle_go` (theorem `cycle_go_pub_agrees`). -/
def cycle_go_pub (saves : Int → List String) (record_pubs : Engine → List Snapshot) :
    Nat → Engine → Engine × List (Int × List String) × List Snapshot
  | 0, s => (s, [], [])
  | fuel + 1, s =>
      if s.is_running = true ∧ s.current_note ≤ s.end_note then
        let note := s.current_note
        let pubs : List Snapshot :=
          (get_state { s with state := Phase.countdown } ::
            (List.range s.countdown_seconds).map
              (fun (j : Nat) =>
                get_state { s with state := Phase.countdown,
                                   countdown_value := s.countdown_seconds - j })) ++
          ([get_state { s with state := Phase.countdown, countdown_value := 0 },
            get_state { s with state := Phase.recording, countdown_value := 0 }] ++
           record_pubs { s with state := Phase.recording, countdown_value := 0 })
        let s1 : Engine :=
          { s with state := Phase.recording, countdown_value := 0, current_level := 0 }
        if s.auto_advance = true ∧ s.current_note < s.end_note then
          let s2 : Engine := { s1 with current_note := s1.current_note + 1 }
          let rest := cycle_go_pub saves record_pubs fuel s2
          (rest.1, (note, saves note) :: rest.2.1, pubs ++ rest.2.2)
        else
          let sP : Engine := { s1 with state := Phase.paused }
          (sP, [(note, saves note)], pubs ++ [get_state sP])
      else
        let sI : Engine := { s with state := Phase.idle, is_running := false }
        (sI, [], [get_state sI])

/-- `_recording_cycle` run to completion with publications tracked. -/
def recording_cycle_pub (saves : Int → List String) (record_pubs : Engine → List Snapshot)
    (s : Engine) : Engine × List (Int × List String) × List Snapshot :=
  cycle_go_pub saves record_pubs ((s.end_note - s.current_note).toNat + 1) s

/-! ## Named predicates and concrete instances used by the theorems -/

/-- The data-model invariant `startNote ≤ currentNote ≤ endNote`. -/
def note_inv (s : Engine) : Prop :=
  s.start_note ≤ s.current_note ∧ s.current_note ≤ s.end_note

instance (s : Engine) : Decidable (note_inv s) := by
  unfold note_inv
  infer_instance

/-- A take that writes no files, used to instantiate the cycle's
save-result parameter. -/
def saves0 : Int → List String := fun _ => []

/-- A take that publishes no level snapshots, used to instantiate the
cycle's record-publication parameter. -/
def pubs0 : Engine → List Snapshot := fun _ => []

/-- The fresh engine after `start()` has set its running flag. -/
def running_engine : Engine := { init with is_running := true }

/-- An engine configured for the one-note range `[60, 60]`, about to be
started. -/
def cex_engine : Engine :=
  { init with start_note := 60, end_note := 60, current_note := 60 }

/-- An engine whose note pointer sits at MIDI 50. -/
def engine_at_50 : Engine := { init with current_note := 50 }

/-- A settings request that only narrows the range end to MIDI 40. -/
def upd_end_40 : SettingsUpdate := { end_note := some 40 }

/-- A settings request carrying the out-of-range start note 200. -/
def upd_start_200 : SettingsUpdate := { start_note := some 200 }

/-- A running flag that drops at tick 1, modelling a `stop()` arriving
after the first polling interval of a take. -/
def flag_drop_1 : Nat → Bool := fun t => decide (t < 1)

/-- An error message thrown by a failing notification callback. -/
def boom : String := "boom"

/-- A notification callback that always raises. -/
def raising_cb : Snapshot → Except String Unit := fun _ => Except.error boom

/-- A device whose stream opened and captured two chunks. -/
def dev_ok_front : DeviceTake := { index := 0, opened := true, chunks := [[1, 2], [3]] }

/-- A device whose stream failed to open. -/
def dev_failed : DeviceTake := { index := 1, opened := false, chunks := [] }

/-- A second healthy device with one captured chunk. -/
def dev_ok_rear : DeviceTake := { index := 2, opened := true, chunks := [[7]] }

/-! ## Helper lemmas -/

theorem stem_matches_all : ∀ n : Nat, n < 128 →
    stem_matches (midi_to_filename (n : Int)) = true := by decide

theorem stem_prefix_all : ∀ n : Nat, n < 128 →
    stem_prefix_val (midi_to_filename (n : Int)) = some n := by decide

theorem display_split_all : ∀ n : Nat, n < 128 →
    display_split (midi_to_display (n : Int)) =
      (str_upper (NOTE_NAMES.getD (n % 12) default), some ((n : Int) / 12 - 1)) := by decide

theorem upper_name_inj : ∀ i : Nat, i < 12 → ∀ j : Nat, j < 12 →
    str_upper (NOTE_NAMES.getD i default) = str_upper (NOTE_NAMES.getD j default) →
    i = j := by decide

/-! ## Claim theorems -/

/-- Claim C1: for every note in [0,127] the file stem is the zero-padded
3-digit MIDI number, a hyphen, and the lower-case pitch class with `#` for
sharps (matching the regex and with numeric prefix equal to the note), the
display name is the upper-cased pitch class followed by octave
`n / 12 - 1`, both maps are deterministic (they are functions), distinct
notes give distinct strings, and notes 12 and 24 get the distinct display
names with the correct octaves. -/
theorem claim_C1 :
    (∀ n : Nat, n < 128 →
      stem_matches (midi_to_filename (n : Int)) = true ∧
      stem_prefix_val (midi_to_filename (n : Int)) = some n ∧
      display_split (midi_to_display (n : Int)) =
        (str_upper (NOTE_NAMES.getD (n % 12) default), some ((n : Int) / 12 - 1))) ∧
    (∀ n : Nat, n < 128 → ∀ m : Nat, m < 128 →
      midi_to_filename (n : Int) = midi_to_filename (m : Int) → n = m) ∧
    (∀ n : Nat, n < 128 → ∀ m : Nat, m < 128 →
      midi_to_display (n : Int) = midi_to_display (m : Int) → n = m) ∧
    midi_to_display 12 = "C0" ∧ midi_to_display 24 = "C1" := by
  refine ⟨?_, ?_, ?_, by decide, by decide⟩
  · intro n hn
    exact ⟨stem_matches_all n hn, stem_prefix_all n hn, display_split_all n hn⟩
  · intro n hn m hm h
    have h1 := stem_prefix_all n hn
    rw [h, stem_prefix_all m hm] at h1
    exact (Option.some.injEq _ _ ▸ h1).symm
  · intro n hn m hm h
    have h1 := display_split_all n hn
    rw [h, display_split_all m hm] at h1
    have h2 : str_upper (NOTE_NAMES.getD (m % 12) default) =
        str_upper (NOTE_NAMES.getD (n % 12) default) := congrArg Prod.fst h1
    have h3 : some ((m : Int) / 12 - 1) = some ((n : Int) / 12 - 1) := congrArg Prod.snd h1
    have h4 : m % 12 = n % 12 :=
      upper_name_inj (m % 12) (Nat.mod_lt _ (by omega)) (n % 12) (Nat.mod_lt _ (by omega)) h2
    have h5 : (m : Int) / 12 - 1 = (n : Int) / 12 - 1 := Option.some.inj h3
    omega

/-- Witness for C1 at the concrete note 37 (C#2, stem `037-c#`). -/
theorem claim_C1_witness :
    stem_matches (midi_to_filename ((37 : Nat) : Int)) = true ∧
    stem_prefix_val (midi_to_filename ((37 : Nat) : Int)) = some 37 :=
  ⟨(claim_C1.1 37 (by decide)).1, (claim_C1.1 37 (by decide)).2.1⟩

/-- Claim C10: the snapshot's progress field is `(current - start) /
(end - start + 1)` whenever the range invariant holds; it is then 0 exactly
at the first note and always strictly below 1, and an empty range is
guarded to 0. -/
theorem claim_C10 (s : Engine) :
    (get_state s).progress = get_progress s ∧
    (s.start_note ≤ s.current_note → s.current_note ≤ s.end_note →
      get_progress s =
        ((s.current_note - s.start_note : Int) : ℚ) /
          ((s.end_note - s.start_note + 1 : Int) : ℚ) ∧
      0 ≤ get_progress s ∧ get_progress s < 1 ∧
      (s.current_note = s.start_note → get_progress s = 0)) ∧
    (s.end_note < s.start_note → get_progress s = 0) := by
  refine ⟨rfl, ?_, ?_⟩
  · intro h1 h2
    have htot : (0 : Int) < s.end_note - s.start_note + 1 := by omega
    have heq : get_progress s =
        ((s.current_note - s.start_note : Int) : ℚ) /
          ((s.end_note - s.start_note + 1 : Int) : ℚ) := by
      unfold get_progress
      rw [if_pos htot]
    have hposQ : (0 : ℚ) < ((s.end_note - s.start_note + 1 : Int) : ℚ) := by
      exact_mod_cast htot
    have hnum : (0 : ℚ) ≤ ((s.current_note - s.start_note : Int) : ℚ) := by
      have : (0 : Int) ≤ s.current_note - s.start_note := by omega
      exact_mod_cast this
    refine ⟨heq, ?_, ?_, ?_⟩
    · rw [heq]
      exact div_nonneg hnum (le_of_lt hposQ)
    · rw [heq, div_lt_one hposQ]
      have : s.current_note - s.start_note < s.end_note - s.start_note + 1 := by omega
      exact_mod_cast this
    · intro hc
      rw [heq, hc]
      simp
  · intro h
    have htot : ¬((0 : Int) < s.end_note - s.start_note + 1) := by omega
    unfold get_progress
    rw [if_neg htot]

/-- Witness for C10 at the freshly initialised engine (range `[36, 96]`,
pointer at 36). -/
theorem claim_C10_witness :
    (get_state init).progress = get_progress init ∧
    get_progress init = 0 ∧ get_progress init < 1 :=
  ⟨(claim_C10 init).1,
   ((claim_C10 init).2.1 (by decide) (by decide)).2.2.2 rfl,
   ((claim_C10 init).2.1 (by decide) (by decide)).2.2.1⟩

theorem record_poll_true_flags (flag : Nat → Bool) :
    ∀ k t0, record_poll flag k t0 = true → ∀ u, t0 ≤ u → u < t0 + k → flag u = true := by
  intro k
  induction k with
  | zero => intro t0 _ u h1 h2; omega
  | succ k ih =>
      intro t0 hp u h1 h2
      rw [record_poll] at hp
      by_cases hf : flag t0 = true
      · rw [if_pos hf] at hp
        rcases Nat.eq_or_lt_of_le h1 with he | hlt
        · rwa [he] at hf
        · exact ih (t0 + 1) hp u hlt (by omega)
      · rw [if_neg hf] at hp
        exact absurd hp (by decide)

/-- Claim C3: `stop()` during a take sets phase Idle and clears
`isRunning` while leaving `currentNote` untouched, and a take whose
running flag is false at any polling tick before completion is aborted
without saving a file. -/
theorem claim_C3 :
    (∀ s : Engine,
      (stop s).1.state = Phase.idle ∧ (stop s).1.is_running = false ∧
      (stop s).1.current_note = s.current_note ∧ (stop s).1.current_level = 0) ∧
    (∀ (flag : Nat → Bool) (ticks : Nat),
      (∃ t, t < ticks ∧ flag t = false) → do_record_single flag ticks = false) := by
  constructor
  · intro s
    exact ⟨rfl, rfl, rfl, rfl⟩
  · intro flag ticks ht
    obtain ⟨t, htt, hft⟩ := ht
    by_contra hne
    have hp : record_poll flag ticks 0 = true := by
      unfold do_record_single at hne
      cases h : record_poll flag ticks 0
      · exact absurd h hne
      · rfl
    have := record_poll_true_flags flag ticks 0 hp t (Nat.zero_le t) (by omega)
    rw [this] at hft
    exact absurd hft (by decide)

/-- Witness for C3: a flag that drops at tick 1 aborts a 3-tick take. -/
theorem claim_C3_witness :
    (stop init).1.state = Phase.idle ∧ do_record_single flag_drop_1 3 = false :=
  ⟨(claim_C3.1 init).1, claim_C3.2 flag_drop_1 3 ⟨1, by decide, by decide⟩⟩

theorem trim_pad_length (frames : Nat) (audio : List Int) :
    (trim_pad frames audio).length = frames := by
  unfold trim_pad
  split
  · rw [List.length_take]
    omega
  · split
    · rw [List.length_append, List.length_replicate]
      omega
    · omega

/-- Claim C5: in multi-device mode every buffer handed to the save step is
trimmed or zero-padded to exactly `sample_rate * record_seconds` frames, so
every written file has that frame count, and with three selected devices of
which one fails to open (the two survivors having produced data) a
completed take writes exactly the two survivors' files. -/
theorem claim_C5 (s : Engine) :
    (∀ audio : List Int,
      (trim_pad (target_frames s) audio).length = s.sample_rate * s.record_seconds) ∧
    (∀ (devs : List DeviceTake) (p : Nat × Nat),
      p ∈ multi_save (target_frames s) devs → p.2 = s.sample_rate * s.record_seconds) ∧
    (∀ d1 d2 d3 : DeviceTake, d1.opened = true → d2.opened = false → d3.opened = true →
      d1.chunks ≠ [] → d3.chunks ≠ [] →
      multi_save (target_frames s) [d1, d2, d3] =
        [(d1.index, s.sample_rate * s.record_seconds),
         (d3.index, s.sample_rate * s.record_seconds)]) := by
  refine ⟨?_, ?_, ?_⟩
  · intro audio
    exact trim_pad_length _ _
  · intro devs p hp
    unfold multi_save at hp
    rcases List.mem_filterMap.mp hp with ⟨d, _, he⟩
    by_cases hc : d.chunks.isEmpty = true
    · rw [if_pos hc] at he
      exact absurd he (by simp)
    · rw [if_neg hc] at he
      have := Option.some.inj he
      rw [← this]
      exact trim_pad_length _ _
  · intro d1 d2 d3 h1 h2 h3 h4 h5
    have e1 : d1.chunks.isEmpty = false := by
      cases hc : d1.chunks
      · exact absurd hc h4
      · rfl
    have e3 : d3.chunks.isEmpty = false := by
      cases hc : d3.chunks
      · exact absurd hc h5
      · rfl
    unfold multi_save
    simp [List.filter_cons, List.filterMap_cons, h1, h2, h3, e1, e3, h4, h5,
      trim_pad_length, target_frames]

/-- Witness for C5: one failed device among three, survivors with data. -/
theorem claim_C5_witness :
    multi_save (target_frames init) [dev_ok_front, dev_failed, dev_ok_rear] =
      [(dev_ok_front.index, init.sample_rate * init.record_seconds),
       (dev_ok_rear.index, init.sample_rate * init.record_seconds)] :=
  (claim_C5 init).2.2 dev_ok_front dev_failed dev_ok_rear rfl rfl rfl
    (by decide) (by decide)

/-- Claim C6: `_save_mp3` never lets an encoding failure escape; a lame
failure falls back to pydub, a double failure keeps the WAV on disk, and
any success leaves the MP3 at the resolved path with the WAV removed. -/
theorem claim_C6 (lame_ok pydub_ok : Bool) (s : Engine) (sub : Option String) :
    ∃ r : SaveFiles, save_mp3 lame_ok pydub_ok s sub = Except.ok r ∧
      ((lame_ok = true ∨ pydub_ok = true) → r.mp3_exists = true ∧ r.wav_exists = false) ∧
      (lame_ok = false → pydub_ok = false → r.mp3_exists = false ∧ r.wav_exists = true) ∧
      (sub = none →
        r.mp3_path = path_join (get_current_register_path s)
          (midi_to_filename s.current_note ++ mp3_ext)) := by
  cases lame_ok <;> cases pydub_ok <;> cases sub <;>
    simp [save_mp3, run_lame, run_pydub]

/-- Witness for C6: lame missing, pydub succeeding. -/
theorem claim_C6_witness :
    ∃ r : SaveFiles, save_mp3 false true init none = Except.ok r ∧
      r.mp3_exists = true ∧ r.wav_exists = false := by
  obtain ⟨r, hr, h1, _, _⟩ := claim_C6 false true init none
  exact ⟨r, hr, (h1 (Or.inr rfl)).1, (h1 (Or.inr rfl)).2⟩

/-- Counterexample to C8 as stated: the out-of-range start note 200 is
accepted by the settings boundary, reported as success, and mutates the
session state. -/
theorem claim_C8_counterexample :
    (update_settings upd_start_200 init).success = true ∧
    (update_settings upd_start_200 init).engine.start_note = 200 ∧
    (update_settings upd_start_200 init).engine ≠ init := by decide

/-- Claim C8 as amended: a setup call missing a required field (project or
register name, organ name, or any keyboard/pedal) is rejected synchronously
with the engine unchanged, but the settings boundary performs no range
validation: any provided integer, in range or not, is applied. -/
theorem claim_C8 :
    (∀ (reg od : Option String) (s : Engine),
      api_setup none reg od s = { success := false, engine := s, published := [] }) ∧
    (∀ (p od : Option String) (s : Engine),
      api_setup p none od s = { success := false, engine := s, published := [] }) ∧
    (∀ (kbs : List String) (ped : Bool) (od : Option String) (s : Engine),
      api_setup_organ "" kbs ped od s = { success := false, engine := s, published := [] }) ∧
    (∀ (organ : String) (od : Option String) (s : Engine),
      api_setup_organ organ [] false od s = { success := false, engine := s, published := [] }) ∧
    (∀ (v : Int) (s : Engine),
      (update_settings { start_note := some v } s).success = true ∧
      (update_settings { start_note := some v } s).engine.start_note = v) ∧
    (∀ (v : Int) (s : Engine),
      (update_settings { end_note := some v } s).success = true ∧
      (update_settings { end_note := some v } s).engine.end_note = v) := by
  refine ⟨?_, ?_, ?_, ?_, ?_, ?_⟩
  · intro reg od s
    cases reg <;> rfl
  · intro p od s
    cases p <;> rfl
  · intro kbs ped od s
    have h : py_strip "" = "" := by decide
    unfold api_setup_organ
    rw [if_pos h]
  · intro organ od s
    unfold api_setup_organ
    by_cases h : py_strip organ = ""
    · rw [if_pos h]
    · rw [if_neg h, if_pos ⟨rfl, rfl⟩]
  · intro v s
    exact ⟨rfl, rfl⟩
  · intro v s
    exact ⟨rfl, rfl⟩


theorem noteRange_self (b : Int) : noteRange b b = [b] := by
  unfold noteRange
  have h : (b + 1 - b).toNat = 1 := by omega
  rw [h]
  simp [List.range_succ]

theorem noteRange_cons (a b : Int) (h : a ≤ b) :
    noteRange a b = a :: noteRange (a + 1) b := by
  unfold noteRange
  have h1 : (b + 1 - a).toNat = (b + 1 - (a + 1)).toNat + 1 := by omega
  rw [h1, List.range_succ_eq_map]
  simp only [List.map_cons, List.map_map, Nat.cast_zero, add_zero]
  refine congrArg (List.cons a) (List.map_congr_left ?_)
  intro i _
  simp only [Function.comp_apply]
  push_cast
  ring

theorem mem_noteRange (a b n : Int) : n ∈ noteRange a b ↔ a ≤ n ∧ n ≤ b := by
  unfold noteRange
  simp only [List.mem_map, List.mem_range]
  constructor
  · rintro ⟨i, hi, rfl⟩
    omega
  · intro h
    exact ⟨(n - a).toNat, by omega, by omega⟩

theorem noteRange_nodup (a b : Int) : (noteRange a b).Nodup := by
  unfold noteRange
  refine List.Nodup.map ?_ (List.nodup_range _)
  intro i j hij
  simp only [add_right_inj, Nat.cast_inj] at hij
  exact hij

theorem noteRange_pairwise (a b : Int) : (noteRange a b).Pairwise (· < ·) := by
  unfold noteRange
  rw [List.pairwise_map]
  refine (List.pairwise_lt_range _).imp ?_
  intro i j hij
  omega

theorem cycle_go_spec (saves : Int → List String) :
    ∀ (fuel : Nat) (s : Engine), s.is_running = true → s.auto_advance = true →
      s.current_note ≤ s.end_note → (s.end_note - s.current_note).toNat < fuel →
      (cycle_go saves fuel s).1.state = Phase.paused ∧
      (cycle_go saves fuel s).1.is_running = true ∧
      (cycle_go saves fuel s).1.current_note = s.end_note ∧
      (cycle_go saves fuel s).2.map Prod.fst = noteRange s.current_note s.end_note := by
  intro fuel
  induction fuel with
  | zero =>
      intro s _ _ _ hf
      omega
  | succ fuel ih =>
      intro s hrun hauto hle hf
      simp only [cycle_go]
      rw [if_pos ⟨hrun, hle⟩]
      by_cases hlt : s.current_note < s.end_note
      · rw [if_pos ⟨hauto, hlt⟩]
        have h2 := ih
          { s with state := Phase.recording, countdown_value := 0, current_level := 0,
                   current_note := s.current_note + 1 }
          hrun hauto (by show s.current_note + 1 ≤ s.end_note; omega)
          (by show (s.end_note - (s.current_note + 1)).toNat < fuel; omega)
        refine ⟨h2.1, h2.2.1, h2.2.2.1, ?_⟩
        rw [List.map_cons, h2.2.2.2, noteRange_cons _ _ (le_of_lt hlt)]
      · rw [if_neg (fun hc => hlt hc.2)]
        have hceq : s.current_note = s.end_note := by omega
        refine ⟨rfl, hrun, hceq, ?_⟩
        rw [hceq, noteRange_self]
        simp

/-- Counterexample to C2 as stated: with the one-note range `[60, 60]` the
cycle, started with auto-advance, does not end in Idle with `isRunning`
false (it ends in Paused with `isRunning` still true). -/
theorem claim_C2_counterexample :
    ¬((recording_cycle saves0 (start_recording_cycle cex_engine)).1.state = Phase.idle ∧
      (recording_cycle saves0 (start_recording_cycle cex_engine)).1.is_running = false) := by
  decide

/-- Claim C2 as amended: with `startNote ≤ endNote`, auto-advance on and no
external stop, the started cycle records every note of the range exactly
once, in strictly ascending order — but it terminates in the Paused phase
with `isRunning` still true and the pointer on the last note (the
Idle/`isRunning = false` exit is reachable only when the loop begins with
`currentNote > endNote`). -/
theorem claim_C2 (s : Engine) (saves : Int → List String)
    (hstate : s.state = Phase.idle ∨ s.state = Phase.paused)
    (hcur : s.current_note = s.start_note)
    (hauto : s.auto_advance = true)
    (hle : s.start_note ≤ s.end_note) :
    (recording_cycle saves (start_recording_cycle s)).2.map Prod.fst =
      noteRange s.start_note s.end_note ∧
    ((recording_cycle saves (start_recording_cycle s)).2.map Prod.fst).Nodup ∧
    ((recording_cycle saves (start_recording_cycle s)).2.map Prod.fst).Pairwise (· < ·) ∧
    (∀ n : Int, n ∈ (recording_cycle saves (start_recording_cycle s)).2.map Prod.fst ↔
      s.start_note ≤ n ∧ n ≤ s.end_note) ∧
    (recording_cycle saves (start_recording_cycle s)).1.state = Phase.paused ∧
    (recording_cycle saves (start_recording_cycle s)).1.is_running = true ∧
    (recording_cycle saves (start_recording_cycle s)).1.current_note = s.end_note := by
  have hs : start_recording_cycle s = { s with is_running := true } := by
    unfold start_recording_cycle
    rw [if_pos hstate]
  have ht1 : (start_recording_cycle s).is_running = true := by
    rw [hs]
  have ht2 : (start_recording_cycle s).auto_advance = true := by
    rw [hs]
    exact hauto
  have ht3 : (start_recording_cycle s).current_note = s.current_note := by
    rw [hs]
  have ht4 : (start_recording_cycle s).end_note = s.end_note := by
    rw [hs]
  unfold recording_cycle
  have h := cycle_go_spec saves
    (((start_recording_cycle s).end_note - (start_recording_cycle s).current_note).toNat + 1)
    (start_recording_cycle s) ht1 ht2 (by rw [ht3, ht4]; omega) (by omega)
  have hmap : (cycle_go saves
      (((start_recording_cycle s).end_note - (start_recording_cycle s).current_note).toNat + 1)
      (start_recording_cycle s)).2.map Prod.fst = noteRange s.start_note s.end_note := by
    rw [h.2.2.2, ht3, ht4, hcur]
  have hfin : (cycle_go saves
      (((start_recording_cycle s).end_note - (start_recording_cycle s).current_note).toNat + 1)
      (start_recording_cycle s)).1.current_note = s.end_note := by
    rw [h.2.2.1, ht4]
  refine ⟨hmap, ?_, ?_, ?_, h.1, h.2.1, hfin⟩
  · rw [hmap]
    exact noteRange_nodup _ _
  · rw [hmap]
    exact noteRange_pairwise _ _
  · intro n
    rw [hmap]
    exact mem_noteRange _ _ n

/-- Witness for C2 (amended) on the one-note range `[60, 60]`. -/
theorem claim_C2_witness :
    (recording_cycle saves0 (start_recording_cycle cex_engine)).2.map Prod.fst =
      noteRange 60 60 ∧
    (recording_cycle saves0 (start_recording_cycle cex_engine)).1.state = Phase.paused := by
  have h := claim_C2 cex_engine saves0 (Or.inl rfl) rfl rfl (by decide)
  exact ⟨h.1, h.2.2.2.2.1⟩

theorem cycle_go_ignores_saves :
    ∀ (fuel : Nat) (s : Engine) (f g : Int → List String),
      (cycle_go f fuel s).1 = (cycle_go g fuel s).1 ∧
      (cycle_go f fuel s).2.map Prod.fst = (cycle_go g fuel s).2.map Prod.fst := by
  intro fuel
  induction fuel with
  | zero =>
      intro s f g
      exact ⟨rfl, rfl⟩
  | succ fuel ih =>
      intro s f g
      simp only [cycle_go]
      by_cases h1 : s.is_running = true ∧ s.current_note ≤ s.end_note
      · rw [if_pos h1, if_pos h1]
        by_cases h2 : s.auto_advance = true ∧ s.current_note < s.end_note
        · rw [if_pos h2, if_pos h2]
          have h3 := ih
            { s with state := Phase.recording, countdown_value := 0, current_level := 0,
                     current_note := s.current_note + 1 } f g
          refine ⟨h3.1, ?_⟩
          simp only [List.map_cons]
          rw [h3.2]
        · rw [if_neg h2, if_neg h2]
          exact ⟨rfl, rfl⟩
      · rw [if_neg h1, if_neg h1]
        exact ⟨rfl, rfl⟩

/-- Claim C7: if no selected device opens, the multi-device save phase
writes no file, and the cycle's continuation (final engine and the notes it
goes on to visit) is the same function of the engine no matter what any
take saved — an abandoned take is followed exactly like a completed one. -/
theorem claim_C7 :
    (∀ (frames : Nat) (devs : List DeviceTake), (∀ d ∈ devs, d.opened = false) →
      multi_save frames devs = []) ∧
    (∀ (f g : Int → List String) (s : Engine),
      (recording_cycle f s).1 = (recording_cycle g s).1 ∧
      (recording_cycle f s).2.map Prod.fst = (recording_cycle g s).2.map Prod.fst) := by
  constructor
  · intro frames devs h
    unfold multi_save
    have hfil : devs.filter (fun d => d.opened) = [] := by
      rw [List.filter_eq_nil_iff]
      intro d hd
      simp [h d hd]
    rw [hfil, List.filterMap_nil]
  · intro f g s
    unfold recording_cycle
    exact cycle_go_ignores_saves _ _ f g

/-- Witness for C7: a single unopenable device yields no file, and the
fresh engine's cycle ends identically whether takes save nothing or one
file per note. -/
theorem claim_C7_witness :
    multi_save 5 [dev_failed] = [] ∧
    (recording_cycle saves0 init).1 =
      (recording_cycle (fun n => [midi_to_filename n]) init).1 :=
  ⟨claim_C7.1 5 [dev_failed] (by decide),
   (claim_C7.2 saves0 (fun n => [midi_to_filename n]) init).1⟩

theorem apply_audio_settings_notes (u : SettingsUpdate) (s : Engine) :
    (apply_audio_settings u s).start_note = s.start_note ∧
    (apply_audio_settings u s).end_note = s.end_note ∧
    (apply_audio_settings u s).current_note = s.current_note := by
  unfold apply_audio_settings
  cases u.sample_rate <;> cases u.bit_depth <;> cases u.channels <;>
    cases u.mp3_bitrate <;> cases u.countdown_seconds <;> cases u.record_seconds <;>
      exact ⟨rfl, rfl, rfl⟩

theorem apply_device_settings_notes (u : SettingsUpdate) (s : Engine) :
    (apply_device_settings u s).start_note = s.start_note ∧
    (apply_device_settings u s).end_note = s.end_note ∧
    (apply_device_settings u s).current_note = s.current_note := by
  unfold apply_device_settings
  cases u.device_indices <;> exact ⟨rfl, rfl, rfl⟩

theorem update_settings_notes (u : SettingsUpdate) (s : Engine) :
    (update_settings u s).engine.start_note = upd_start u s ∧
    (update_settings u s).engine.end_note = upd_end u s ∧
    (update_settings u s).engine.current_note =
      (match u.start_note, u.end_note with
        | none, none => s.current_note
        | some a, none => max s.current_note a
        | none, some b => min s.current_note b
        | some a, some b => min (max s.current_note a) b) := by
  obtain ⟨e1, e2, e3⟩ := apply_audio_settings_notes u s
  obtain ⟨d1, d2, d3⟩ := apply_device_settings_notes u
    (apply_end_note u (apply_start_note u (apply_audio_settings u s)))
  unfold update_settings
  rw [d1, d2, d3]
  unfold apply_end_note apply_start_note upd_start upd_end
  rcases hsn : u.start_note with _ | a <;> rcases hen : u.end_note with _ | b <;>
    simp [e1, e2, e3]

/-- Claim C4: every pointer-moving operation — next, prev, jump, new
register, and a settings update of the range bounds — preserves
`startNote ≤ currentNote ≤ endNote` (given the resulting range is
nonempty); an out-of-range jump is silently ignored, next/prev are no-ops
at the boundaries, and narrowing the range clamps the pointer, so from
`currentNote = 50` a settings update with `endNote = 40` yields a snapshot
with `currentNote = 40`. -/
theorem claim_C4 (s : Engine) (hinv : note_inv s) :
    (note_inv (next_note s).1 ∧ (s.current_note = s.end_note → (next_note s).1 = s)) ∧
    (note_inv (prev_note s).1 ∧ (s.current_note = s.start_note → (prev_note s).1 = s)) ∧
    (∀ m : Int, note_inv (set_note m s).1 ∧
      ((m < s.start_note ∨ s.end_note < m) → (set_note m s).1 = s)) ∧
    (∀ (name : String) (trem : Bool), note_inv (new_register name trem s).1 ∧
      (new_register name trem s).1.current_note = s.start_note) ∧
    (∀ u : SettingsUpdate, upd_start u s ≤ upd_end u s →
      note_inv (update_settings u s).engine) ∧
    (∀ u : SettingsUpdate, u.end_note = some 40 → s.current_note = 50 →
      (get_state (update_settings u s).engine).current_midi = 40) := by
  obtain ⟨hi1, hi2⟩ := hinv
  refine ⟨⟨?_, ?_⟩, ⟨?_, ?_⟩, ?_, ?_, ?_, ?_⟩
  · unfold note_inv next_note
    split
    · constructor
      · show s.start_note ≤ s.current_note + 1
        omega
      · show s.current_note + 1 ≤ s.end_note
        omega
    · exact ⟨hi1, hi2⟩
  · intro he
    unfold next_note
    rw [if_neg (by omega)]
  · unfold note_inv prev_note
    split
    · constructor
      · show s.start_note ≤ s.current_note - 1
        omega
      · show s.current_note - 1 ≤ s.end_note
        omega
    · exact ⟨hi1, hi2⟩
  · intro he
    unfold prev_note
    rw [if_neg (by omega)]
  · intro m
    constructor
    · unfold note_inv set_note
      split
      · next hm => exact ⟨hm.1, hm.2⟩
      · exact ⟨hi1, hi2⟩
    · intro hout
      unfold set_note
      rw [if_neg (by omega)]
  · intro name trem
    constructor
    · unfold note_inv new_register stop
      constructor
      · show s.start_note ≤ s.start_note
        omega
      · show s.start_note ≤ s.end_note
        omega
    · rfl
  · intro u hse
    obtain ⟨n1, n2, n3⟩ := update_settings_notes u s
    unfold note_inv
    rw [n1, n2, n3]
    revert hse
    unfold upd_start upd_end
    rcases u.start_note with _ | a <;> rcases u.end_note with _ | b <;>
      (intro hse
       simp only [Option.getD_some, Option.getD_none] at hse ⊢
       omega)
  · intro u hu h50
    obtain ⟨n1, n2, n3⟩ := update_settings_notes u s
    show (update_settings u s).engine.current_note = 40
    rw [n3, hu, h50]
    rcases u.start_note with _ | a <;> simp

/-- Witness for C4 at a state with the pointer on MIDI 50: `next` keeps
the invariant and the `endNote = 40` narrowing clamps the snapshot's
pointer to 40. -/
theorem claim_C4_witness :
    note_inv (next_note engine_at_50).1 ∧
    (get_state (update_settings upd_end_40 engine_at_50).engine).current_midi = 40 :=
  ⟨(claim_C4 engine_at_50 (by constructor <;> decide)).1.1,
   (claim_C4 engine_at_50 (by constructor <;> decide)).2.2.2.2.2 upd_end_40 rfl rfl⟩

theorem cycle_go_pub_agrees (saves : Int → List String)
    (record_pubs : Engine → List Snapshot) :
    ∀ (fuel : Nat) (s : Engine),
      (cycle_go_pub saves record_pubs fuel s).1 = (cycle_go saves fuel s).1 ∧
      (cycle_go_pub saves record_pubs fuel s).2.1 = (cycle_go saves fuel s).2 := by
  intro fuel
  induction fuel with
  | zero =>
      intro s
      exact ⟨rfl, rfl⟩
  | succ fuel ih =>
      intro s
      simp only [cycle_go, cycle_go_pub]
      by_cases h1 : s.is_running = true ∧ s.current_note ≤ s.end_note
      · rw [if_pos h1, if_pos h1]
        by_cases h2 : s.auto_advance = true ∧ s.current_note < s.end_note
        · rw [if_pos h2, if_pos h2]
          have h3 := ih { s with state := Phase.recording, countdown_value := 0,
                                 current_level := 0, current_note := s.current_note + 1 }
          exact ⟨h3.1, by rw [h3.2]⟩
        · rw [if_neg h2, if_neg h2]
          exact ⟨rfl, rfl⟩
      · rw [if_neg h1, if_neg h1]
        exact ⟨rfl, rfl⟩

theorem cycle_pub_head (saves : Int → List String) (record_pubs : Engine → List Snapshot)
    (fuel : Nat) (s : Engine) (h1 : s.is_running = true)
    (h2 : s.current_note ≤ s.end_note) :
    (cycle_go_pub saves record_pubs (fuel + 1) s).2.2.head? =
      some (get_state { s with state := Phase.countdown }) := by
  simp only [cycle_go_pub]
  rw [if_pos ⟨h1, h2⟩]
  by_cases h3 : s.auto_advance = true ∧ s.current_note < s.end_note
  · rw [if_pos h3]
    rfl
  · rw [if_neg h3]
    rfl

theorem cycle_pub_recording (saves : Int → List String)
    (record_pubs : Engine → List Snapshot) (fuel : Nat) (s : Engine)
    (h1 : s.is_running = true) (h2 : s.current_note ≤ s.end_note) :
    get_state { s with state := Phase.recording, countdown_value := 0 } ∈
      (cycle_go_pub saves record_pubs (fuel + 1) s).2.2 := by
  simp only [cycle_go_pub]
  rw [if_pos ⟨h1, h2⟩]
  by_cases h3 : s.auto_advance = true ∧ s.current_note < s.end_note
  · rw [if_pos h3]
    simp
  · rw [if_neg h3]
    simp

theorem cycle_pub_last (saves : Int → List String)
    (record_pubs : Engine → List Snapshot) :
    ∀ (fuel : Nat) (s : Engine), s.is_running = true → s.auto_advance = true →
      s.current_note ≤ s.end_note → (s.end_note - s.current_note).toNat < fuel →
      (cycle_go_pub saves record_pubs fuel s).2.2.getLast? =
        some (get_state (cycle_go_pub saves record_pubs fuel s).1) := by
  intro fuel
  induction fuel with
  | zero =>
      intro s _ _ _ hf
      omega
  | succ fuel ih =>
      intro s hrun hauto hle hf
      simp only [cycle_go_pub]
      rw [if_pos ⟨hrun, hle⟩]
      by_cases hlt : s.current_note < s.end_note
      · rw [if_pos ⟨hauto, hlt⟩]
        have h2 := ih
          { s with state := Phase.recording, countdown_value := 0, current_level := 0,
                   current_note := s.current_note + 1 }
          hrun hauto (by show s.current_note + 1 ≤ s.end_note; omega)
          (by show (s.end_note - (s.current_note + 1)).toNat < fuel; omega)
        have hne : (cycle_go_pub saves record_pubs fuel
            { s with state := Phase.recording, countdown_value := 0, current_level := 0,
                     current_note := s.current_note + 1 }).2.2 ≠ [] := by
          intro hnil
          rw [hnil] at h2
          exact absurd h2 (by simp)
        exact (List.getLast?_append_of_ne_nil _ hne).trans h2
      · rw [if_neg (fun hc => hlt hc.2)]
        exact (List.getLast?_append_of_ne_nil _ (by simp)).trans rfl

/-- Counterexample to C9 as stated: the settings boundary call narrows the
range end to 40, which changes the engine (and its observable snapshot)
while publishing no snapshot to the callback. -/
theorem claim_C9_counterexample :
    (update_settings upd_end_40 engine_at_50).engine ≠ engine_at_50 ∧
    get_state (update_settings upd_end_40 engine_at_50).engine ≠ get_state engine_at_50 ∧
    (update_settings upd_end_40 engine_at_50).published = [] := by decide

/-- Claim C9 as amended: a failing notification callback is always caught
— `_notify` returns normally with the engine unchanged — and the engine's
own transitions each publish: the transition methods publish the
post-state snapshot, and the recording cycle publishes a Countdown
snapshot on entering each iteration, a Recording snapshot before each
take, an Idle snapshot when the loop exits, and a final Paused snapshot
(of its final state) when a started in-range run ends; but not every
state transition publishes: the settings and setup boundary calls change
observable state while publishing nothing. -/
theorem claim_C9 :
    (∀ (cb : Snapshot → Except String Unit) (s : Engine), notify cb s = Except.ok s) ∧
    (∀ s : Engine, (stop s).2 = [get_state (stop s).1]) ∧
    (∀ s : Engine, (pause s).2 = [get_state (pause s).1]) ∧
    (∀ s : Engine, s.current_note < s.end_note →
      (next_note s).2 = [get_state (next_note s).1]) ∧
    (∀ s : Engine, s.start_note < s.current_note →
      (prev_note s).2 = [get_state (prev_note s).1]) ∧
    (∀ (m : Int) (s : Engine), s.start_note ≤ m → m ≤ s.end_note →
      (set_note m s).2 = [get_state (set_note m s).1]) ∧
    (∀ (name : String) (trem : Bool) (s : Engine),
      (new_register name trem s).2 =
        [get_state (stop s).1, get_state (new_register name trem s).1]) ∧
    (∀ (u : SettingsUpdate) (s : Engine), (update_settings u s).published = []) ∧
    (∀ (saves : Int → List String) (record_pubs : Engine → List Snapshot) (fuel : Nat)
        (s : Engine), s.is_running = true → s.current_note ≤ s.end_note →
      (cycle_go_pub saves record_pubs (fuel + 1) s).2.2.head? =
        some (get_state { s with state := Phase.countdown })) ∧
    (∀ (saves : Int → List String) (record_pubs : Engine → List Snapshot) (fuel : Nat)
        (s : Engine), s.is_running = true → s.current_note ≤ s.end_note →
      get_state { s with state := Phase.recording, countdown_value := 0 } ∈
        (cycle_go_pub saves record_pubs (fuel + 1) s).2.2) ∧
    (∀ (saves : Int → List String) (record_pubs : Engine → List Snapshot) (s : Engine),
      ¬(s.is_running = true ∧ s.current_note ≤ s.end_note) →
      (recording_cycle_pub saves record_pubs s).2.2 =
        [get_state { s with state := Phase.idle, is_running := false }]) ∧
    (∀ (saves : Int → List String) (record_pubs : Engine → List Snapshot) (s : Engine),
      s.is_running = true → s.auto_advance = true → s.current_note ≤ s.end_note →
      (recording_cycle_pub saves record_pubs s).2.2.getLast? =
        some (get_state (recording_cycle_pub saves record_pubs s).1) ∧
      (recording_cycle_pub saves record_pubs s).1.state = Phase.paused) ∧
    (∀ (p r : String) (od : Option String) (s : Engine),
      (api_setup (some p) (some r) od s).published = []) := by
  refine ⟨?_, ?_, ?_, ?_, ?_, ?_, ?_, ?_, ?_, ?_, ?_, ?_, ?_⟩
  · intro cb s
    unfold notify
    cases cb (get_state s) <;> rfl
  · intro s
    rfl
  · intro s
    rfl
  · intro s h
    unfold next_note
    rw [if_pos h]
  · intro s h
    unfold prev_note
    rw [if_pos h]
  · intro m s h1 h2
    unfold set_note
    rw [if_pos ⟨h1, h2⟩]
  · intro name trem s
    rfl
  · intro u s
    rfl
  · intro saves record_pubs fuel s h1 h2
    exact cycle_pub_head saves record_pubs fuel s h1 h2
  · intro saves record_pubs fuel s h1 h2
    exact cycle_pub_recording saves record_pubs fuel s h1 h2
  · intro saves record_pubs s h
    unfold recording_cycle_pub
    simp only [cycle_go_pub]
    rw [if_neg h]
  · intro saves record_pubs s hrun hauto hle
    constructor
    · unfold recording_cycle_pub
      exact cycle_pub_last saves record_pubs _ s hrun hauto hle (by omega)
    · unfold recording_cycle_pub
      rw [(cycle_go_pub_agrees saves record_pubs
        ((s.end_note - s.current_note).toNat + 1) s).1]
      exact (cycle_go_spec saves ((s.end_note - s.current_note).toNat + 1) s
        hrun hauto hle (by omega)).1
  · intro p r od s
    rfl

/-- Witness for C9 (amended): `next` from the fresh engine publishes its
snapshot, a raising callback is swallowed, and the started fresh engine's
cycle opens by publishing the Countdown snapshot. -/
theorem claim_C9_witness :
    (next_note init).2 = [get_state (next_note init).1] ∧
    notify raising_cb init = Except.ok init ∧
    (cycle_go_pub saves0 pubs0 1 running_engine).2.2.head? =
      some (get_state { running_engine with state := Phase.countdown }) :=
  ⟨claim_C9.2.2.2.1 init (by decide), claim_C9.1 raising_cb init,
   claim_C9.2.2.2.2.2.2.2.2.1 saves0 pubs0 0 running_engine rfl (by decide)⟩
